import Mathlib

/-!
Shallow embedding of the version-reconstruction core of the rsync-s3 browser
(`src/browser/app/version_mapper.py`, `src/browser/app/sftp_client.py`,
`src/browser/app/s3_client.py`), together with theorems settling the frozen
claims about it.

Conventions of the embedding:
* Python `datetime` values coming from the transports are modelled by `DT`,
  a pair of (epoch seconds, microseconds); `replace(microsecond=0)` becomes
  zeroing the second component.
* Snapshot-name timestamps (from `SnapshotInfo.from_name`) are calendar
  values `CalTime` with minute and second fixed to 0 by the parser.
* Fallible transport calls are modelled by outcome types: a success payload,
  the exception classes the Python code catches, and a catch-all for other
  exceptions; a Python function that can raise returns `Except`.
* Python's stable `list.sort` (Timsort) is modelled by a stable insertion
  sort `insertionSortBy`; both produce the unique stable sorted order.
-/

namespace RsyncS3

/-- A transport-level datetime: epoch seconds and microseconds.
S3 returns sub-second precision; SFTP mtimes are integer seconds. -/
structure DT where
  sec : Nat
  micro : Nat
deriving DecidableEq

/-- `_normalize_datetime` from version_mapper.py: truncate to whole seconds
(`dt.replace(microsecond=0)`), mapping `None` to `None`. -/
def normalize_datetime (dt : Option DT) : Option DT :=
  dt.map fun d => { sec := d.sec, micro := 0 }

/-- Calendar timestamp parsed out of a snapshot name (naive wall clock). -/
structure CalTime where
  year : Nat
  month : Nat
  day : Nat
  hour : Nat
  minute : Nat
  second : Nat
deriving DecidableEq

/-- Injective monotone flattening of an in-bounds `CalTime` for ordering
(month < 13, day < 32, hour < 24, minute and second < 60). -/
def CalTime.key (t : CalTime) : Nat :=
  ((((t.year * 13 + t.month) * 32 + t.day) * 24 + t.hour) * 60 + t.minute) * 60
    + t.second

/-- `SnapshotInfo` from sftp_client.py. -/
structure SnapshotInfo where
  name : String
  timestamp : Option CalTime
deriving DecidableEq

/-- `FileInfo` from sftp_client.py (note: `modified_time` is not optional). -/
structure FileInfo where
  path : String
  name : String
  size : Nat
  modified_time : DT
  is_dir : Bool
deriving DecidableEq

/-- Gregorian leap-year test, as Python's `datetime` uses. -/
def isLeapYear (y : Nat) : Bool :=
  y % 4 == 0 && (y % 100 != 0 || y % 400 == 0)

/-- Days in a month, as validated by `datetime.strptime`. -/
def daysInMonth (y m : Nat) : Nat :=
  if m == 2 then (if isLeapYear y then 29 else 28)
  else if m == 4 || m == 6 || m == 9 || m == 11 then 30
  else 31

/-- `strptime("%Y-%m-%d")` acceptance: year 1..9999, valid month and day. -/
def validYMD (y m d : Nat) : Bool :=
  Nat.ble 1 y && Nat.ble y 9999 && Nat.ble 1 m && Nat.ble m 12 &&
    Nat.ble 1 d && Nat.ble d (daysInMonth y m)

/-- `strptime("%Y-%m")` acceptance. -/
def validYM (y m : Nat) : Bool :=
  Nat.ble 1 y && Nat.ble y 9999 && Nat.ble 1 m && Nat.ble m 12

/-- Numeric value of an ASCII digit character. -/
def dnum (c : Char) : Nat := c.toNat - 48

/-- Match `\d{4}-\d{2}-\d{2}` at the front of a character list, returning
(year, month, day) and the remaining characters. -/
def matchDate : List Char → Option (Nat × Nat × Nat × List Char)
  | a :: b :: c :: d :: e :: f :: g :: h :: i :: j :: rest =>
    if a.isDigit && b.isDigit && c.isDigit && d.isDigit && e == '-' &&
        f.isDigit && g.isDigit && h == '-' && i.isDigit && j.isDigit then
      some (dnum a * 1000 + dnum b * 100 + dnum c * 10 + dnum d,
            dnum f * 10 + dnum g, dnum i * 10 + dnum j, rest)
    else none
  | _ => none

/-- Match `\d{4}-\d{2}` at the front, returning (year, month) and the rest. -/
def matchYM : List Char → Option (Nat × Nat × List Char)
  | a :: b :: c :: d :: e :: f :: g :: rest =>
    if a.isDigit && b.isDigit && c.isDigit && d.isDigit && e == '-' &&
        f.isDigit && g.isDigit then
      some (dnum a * 1000 + dnum b * 100 + dnum c * 10 + dnum d,
            dnum f * 10 + dnum g, rest)
    else none
  | _ => none

/-- Does the suffix start with `_(\d{4}-\d{2}-\d{2})_(\d{2})` (the first
pattern of `SnapshotInfo.from_name`)? Returns the captured groups. -/
def tryP1 : List Char → Option (Nat × Nat × Nat × Nat)
  | c :: rest =>
    if c == '_' then
      match matchDate rest with
      | some (y, m, d, rest2) =>
        match rest2 with
        | u :: h1 :: h2 :: _ =>
          if u == '_' && h1.isDigit && h2.isDigit then
            some (y, m, d, dnum h1 * 10 + dnum h2)
          else none
        | _ => none
      | none => none
    else none
  | [] => none

/-- Does the suffix start with `_(\d{4}-\d{2}-\d{2})` (the second pattern)? -/
def tryP2 : List Char → Option (Nat × Nat × Nat)
  | c :: rest =>
    if c == '_' then
      match matchDate rest with
      | some (y, m, d, _) => some (y, m, d)
      | none => none
    else none
  | [] => none

/-- Does the suffix start with `_(\d{4}-\d{2})` (the third pattern)? -/
def tryP3 : List Char → Option (Nat × Nat)
  | c :: rest =>
    if c == '_' then
      match matchYM rest with
      | some (y, m, _) => some (y, m)
      | none => none
    else none
  | [] => none

/-- `re.search` with a greedy `.*` before the group: of all suffix positions
where the pattern matches, the groups come from the rightmost one. -/
def searchLast {α : Type} (f : List Char → Option α) : List Char → Option α
  | [] => f []
  | c :: rest =>
    match searchLast f rest with
    | some r => some r
    | none => f (c :: rest)

/-- Third pattern of `from_name`: `.*_(\d{4}-\d{2})`, then
`strptime(date_str, "%Y-%m")`; on `ValueError` the loop falls through
with no timestamp. -/
def from_name_p3 (cs : List Char) : Option CalTime :=
  match searchLast tryP3 cs with
  | some (y, m) => if validYM y m then some ⟨y, m, 1, 0, 0, 0⟩ else none
  | none => none

/-- Second pattern of `from_name`: `.*_(\d{4}-\d{2}-\d{2})`, then
`strptime(date_str, "%Y-%m-%d")`; on `ValueError` the loop moves on to
the third pattern. -/
def from_name_p2 (cs : List Char) : Option CalTime :=
  match searchLast tryP2 cs with
  | some (y, m, d) =>
    if validYMD y m d then some ⟨y, m, d, 0, 0, 0⟩ else from_name_p3 cs
  | none => from_name_p3 cs

/-- `SnapshotInfo.from_name` from sftp_client.py: try the three suffix
patterns in order; a regex match whose `strptime` raises `ValueError` does
not break the loop, so the next pattern is tried. -/
def SnapshotInfo.from_name (name : String) : SnapshotInfo :=
  let cs := name.toList
  match searchLast tryP1 cs with
  | some (y, m, d, h) =>
    if validYMD y m d && Nat.ble h 23 then
      { name := name, timestamp := some ⟨y, m, d, h, 0, 0⟩ }
    else { name := name, timestamp := from_name_p2 cs }
  | none => { name := name, timestamp := from_name_p2 cs }

/-! ## Settings and snapshot path construction -/

/-- The two settings the snapshot adapter uses: `snapshot_dir`
(default `.zfs`) and the S3 root subdirectory setting (`s3_root_prefix`
in config.py, default `s3root`), here called `s3_root`. -/
structure Settings where
  snapshot_dir : String
  s3_root : String
deriving DecidableEq

/-- `SFTPClient._snapshot_base_path`. -/
def snapshot_base_path (st : Settings) : String := st.snapshot_dir

/-- `SFTPClient._snapshot_root`: elide the S3 root segment when the setting
is `"."` or `""`. -/
def snapshot_root (st : Settings) (snapshot_name : String) : String :=
  if st.s3_root = "." ∨ st.s3_root = "" then
    snapshot_base_path st ++ "/" ++ snapshot_name
  else
    snapshot_base_path st ++ "/" ++ snapshot_name ++ "/" ++ st.s3_root

/-- `SFTPClient._snapshot_object_path`. -/
def snapshot_object_path (st : Settings) (snapshot_name bucket key : String) :
    String :=
  snapshot_root st snapshot_name ++ "/" ++ bucket ++ "/" ++ key

/-! ## Stable sorting (Python `list.sort` is stable) -/

/-- Insert `a` into `l`, before the first element `b` with `le a b`. -/
def orderedInsertBy {α : Type} (le : α → α → Bool) (a : α) :
    List α → List α
  | [] => [a]
  | b :: l => if le a b then a :: b :: l else b :: orderedInsertBy le a l

/-- Stable insertion sort: for a total preorder `le` it yields the unique
stable sorted order, the same as Python's Timsort. -/
def insertionSortBy {α : Type} (le : α → α → Bool) : List α → List α
  | [] => []
  | a :: l => orderedInsertBy le a (insertionSortBy le l)

/-- Sort key of `SFTPClient.list_snapshots`: the tuple
`(s.timestamp is not None, s.timestamp)`, flattened to a `Nat`. -/
def snapKey (s : SnapshotInfo) : Nat :=
  match s.timestamp with
  | none => 0
  | some t => 1 + CalTime.key t

/-- The sort at the end of `SFTPClient.list_snapshots`: stable sort with
`reverse=True` on `(timestamp is not None, timestamp)` — timestamps
descending, entries without a timestamp last, ties in input order. -/
def sortSnapshots (l : List SnapshotInfo) : List SnapshotInfo :=
  insertionSortBy (fun a b => Nat.ble (snapKey b) (snapKey a)) l

/-! ## S3 adapter: head_object -/

/-- The dict `S3Client.head_object` builds from the HEAD response. -/
structure S3Meta where
  key : String
  size : Nat
  last_modified : Option DT
  etag : String
  content_type : String
  metadata : List (String × String)
deriving DecidableEq

/-- Raw HEAD response fields, each possibly absent. -/
structure S3HeadResponse where
  contentLength : Option Nat
  lastModified : Option DT
  eTag : Option String
  contentType : Option String
  metadata : List (String × String)
deriving DecidableEq

/-- Outcome of the underlying `client.head_object` transport call:
a response, a `botocore` `ClientError` (carrying its error code), or any
other exception. -/
inductive S3HeadOutcome where
  | ok (resp : S3HeadResponse)
  | clientError (code : String)
  | otherError (msg : String)
deriving DecidableEq

/-- The `ClientError` code the S3 gateway reports when a HEAD target does
not exist. -/
def s3NotFoundCode : String := "404"

/-- Python `str.strip('"')`: drop all leading and trailing quote chars. -/
def stripQuotes (s : String) : String :=
  let l := s.toList.dropWhile (fun c => c == '"')
  String.mk ((l.reverse.dropWhile (fun c => c == '"')).reverse)

/-- `S3Client.head_object`: on a response build the metadata dict; catch
`client.exceptions.ClientError` and return `None`; let every other
exception propagate. -/
def head_object (outcome : S3HeadOutcome) (key : String) :
    Except String (Option S3Meta) :=
  match outcome with
  | .ok r =>
    .ok (some { key := key
                size := r.contentLength.getD 0
                last_modified := r.lastModified
                etag := stripQuotes (r.eTag.getD "")
                content_type := r.contentType.getD "application/octet-stream"
                metadata := r.metadata })
  | .clientError _ => .ok none
  | .otherError e => .error e

/-! ## SFTP adapter: stat_snapshot_object -/

/-- SFTP attributes as asyncssh exposes them (`size`, `mtime`, `type`). -/
structure SFTPAttrs where
  size : Option Nat
  mtime : Option Nat
  ftype : Nat
deriving DecidableEq

/-- `asyncssh.FILEXFER_TYPE_DIRECTORY`. -/
def filexferTypeDirectory : Nat := 2

/-- The `asyncssh.SFTPError` code for a missing path (`SFTP_NO_SUCH_FILE`). -/
def sftpNoSuchFile : Nat := 2

/-- Outcome of the underlying `sftp.stat` call: attributes, an
`asyncssh.SFTPError` (carrying its code), an `OSError`, or any other
exception. -/
inductive SFTPStatOutcome where
  | ok (attrs : SFTPAttrs)
  | sftpError (code : Nat)
  | osError (msg : String)
  | otherError (msg : String)
deriving DecidableEq

/-- `PurePosixPath(key).name`: the last path component after dropping empty
and `.` segments. -/
def posixName (key : String) : String :=
  (((key.splitOn "/").filter (fun s => !(s == "") && !(s == "."))).getLast?).getD ""

/-- `SFTPClient.stat_snapshot_object`: build a `FileInfo` from the stat
attributes; catch `(asyncssh.SFTPError, OSError)` and return `None`; let
every other exception propagate. -/
def stat_snapshot_object (st : Settings) (outcome : SFTPStatOutcome)
    (snapshot_name bucket key : String) : Except String (Option FileInfo) :=
  let path := snapshot_object_path st snapshot_name bucket key
  match outcome with
  | .ok attrs =>
    .ok (some { path := path
                name := posixName key
                size := attrs.size.getD 0
                modified_time := { sec := attrs.mtime.getD 0, micro := 0 }
                is_dir := attrs.ftype == filexferTypeDirectory })
  | .sftpError _ => .ok none
  | .osError _ => .ok none
  | .otherError e => .error e

/-! ## Version mapper data model -/

/-- `VersionSource` from version_mapper.py. -/
inductive VersionSource where
  | current
  | snapshot
deriving DecidableEq

/-- `VersionInfo` from version_mapper.py. -/
structure VersionInfo where
  version_id : String
  source : VersionSource
  size : Nat
  modified_time : Option DT
  etag : Option String
  snapshot_name : Option String
  is_current : Bool
deriving DecidableEq

/-- A version signature `(size, modified time truncated to seconds)` —
the sole equality relation used for deduplication. -/
def signatureOf (r : VersionInfo) : Nat × Option DT :=
  (r.size, normalize_datetime r.modified_time)

/-- `VersionMapper._get_current_version`, applied to the result of
`head_object`. -/
def get_current_version (metadata : Option S3Meta) : Option VersionInfo :=
  metadata.map fun m =>
    { version_id := "current"
      source := .current
      size := m.size
      modified_time := m.last_modified
      etag := some m.etag
      snapshot_name := none
      is_current := true }

/-- `VersionMapper._get_snapshot_version`, applied to the result of
`stat_snapshot_object` for one snapshot. -/
def get_snapshot_version (snapshot : SnapshotInfo)
    (file_info : Option FileInfo) : Option VersionInfo :=
  match file_info with
  | some fi =>
    if fi.is_dir then none
    else some
      { version_id := snapshot.name
        source := .snapshot
        size := fi.size
        modified_time := some fi.modified_time
        etag := none
        snapshot_name := some snapshot.name
        is_current := false }
  | none => none

/-- The mapper's sort key, `(v.modified_time or datetime.min,)`:
`none` (i.e. `datetime.min`) sorts before every transport datetime, and
datetimes compare by (seconds, microseconds). -/
def mtimeLeB (a b : VersionInfo) : Bool :=
  match a.modified_time, b.modified_time with
  | none, _ => true
  | some _, none => false
  | some x, some y =>
    Nat.blt x.sec y.sec || (x.sec == y.sec && Nat.ble x.micro y.micro)

/-- The provisional snapshot records of `list_object_versions`: one per
snapshot whose stat returned a non-directory `FileInfo`, in snapshot-list
order (`asyncio.gather` preserves task order). -/
def snapshotVersionsOf (snapshots : List SnapshotInfo)
    (stat : String → Option FileInfo) : List VersionInfo :=
  snapshots.filterMap fun s => get_snapshot_version s (stat s.name)

/-- The current version's signature, or `None` when there is no current
version. -/
def currentSignatureOf (head : Option S3Meta) : Option (Nat × Option DT) :=
  (get_current_version head).map signatureOf

/-- The dedup walk of `list_object_versions`: drop a record whose signature
was already kept or equals the current signature; otherwise keep it and
remember its signature. -/
def dedupSnapshots : List VersionInfo → List (Nat × Option DT) →
    Option (Nat × Option DT) → List VersionInfo
  | [], _, _ => []
  | v :: rest, seen, cs =>
    if signatureOf v ∈ seen then dedupSnapshots rest seen cs
    else if some (signatureOf v) = cs then dedupSnapshots rest seen cs
    else v :: dedupSnapshots rest (signatureOf v :: seen) cs

/-- The deduplicated snapshot records, oldest file mtime first. -/
def uniqueVersionsOf (head : Option S3Meta) (snapshots : List SnapshotInfo)
    (stat : String → Option FileInfo) : List VersionInfo :=
  dedupSnapshots (insertionSortBy mtimeLeB (snapshotVersionsOf snapshots stat))
    [] (currentSignatureOf head)

/-- One step of identifier assignment: overwrite `version_id` with
`f"v{i}"`, decorated with `" (current)"` for the current record. -/
def patchId (i : Nat) (v : VersionInfo) : VersionInfo :=
  if v.is_current then { v with version_id := "v" ++ toString i ++ " (current)" }
  else { v with version_id := "v" ++ toString i }

/-- Identifier assignment of `list_object_versions`: `enumerate(..., 1)`
over the oldest-first list; the current record's id is decorated. -/
def assignIds : Nat → List VersionInfo → List VersionInfo
  | _, [] => []
  | i, v :: rest => patchId i v :: assignIds (i + 1) rest

/-- `VersionMapper.list_object_versions`, as a function of the backend
results it consumes: the head metadata (already through `head_object`),
the snapshot list (as returned by `list_snapshots`), and the per-snapshot
stat results (already through `stat_snapshot_object`, keyed by snapshot
name). Returns the labelled timeline, newest first. -/
def list_object_versions (head : Option S3Meta)
    (snapshots : List SnapshotInfo) (stat : String → Option FileInfo) :
    List VersionInfo :=
  (assignIds 1
    (uniqueVersionsOf head snapshots stat ++
      (get_current_version head).toList)).reverse

/-! ## Content dispatch -/

/-- Byte strings are lists of byte values. -/
def ByteStr : Type := List Nat

/-- Python `s.endswith(sfx)`: a plain suffix test. -/
def str_ends_with (s sfx : String) : Bool :=
  List.isPrefixOf sfx.toList.reverse s.toList.reverse

/-- `VersionMapper.get_version_content`, as a function of the backend
calls it can make. `s3GetBytes` is `S3Client.get_object_bytes (bucket, key)`,
`s3Head` the raw HEAD outcome for `(bucket, key)`, `snapGetBytes` is
`SFTPClient.get_snapshot_file_bytes (snapshot, bucket, key)` and `snapStat`
the raw stat outcome for `(snapshot, bucket, key)`. -/
def get_version_content (st : Settings)
    (s3GetBytes : String → String → Except String ByteStr)
    (s3Head : String → String → S3HeadOutcome)
    (snapGetBytes : String → String → String → Except String ByteStr)
    (snapStat : String → String → String → SFTPStatOutcome)
    (bucket key version_id : String) :
    Except String (ByteStr × VersionInfo) :=
  if version_id = "current" ∨ str_ends_with version_id "(current)" = true then
    match s3GetBytes bucket key with
    | .error e => .error e
    | .ok content =>
      match head_object (s3Head bucket key) key with
      | .error e => .error e
      | .ok metadata =>
        Except.ok (content,
          { version_id := "current"
            source := .current
            size := content.length
            modified_time := metadata.bind fun m => m.last_modified
            etag := metadata.map fun m => m.etag
            snapshot_name := none
            is_current := true })
  else
    match snapGetBytes version_id bucket key with
    | .error e => .error e
    | .ok content =>
      match stat_snapshot_object st (snapStat version_id bucket key)
          version_id bucket key with
      | .error e => .error e
      | .ok file_info =>
        Except.ok (content,
          { version_id := version_id
            source := .snapshot
            size := content.length
            modified_time := file_info.map fun fi => fi.modified_time
            etag := none
            snapshot_name := some version_id
            is_current := false })

/-! ## Concrete fixtures used by witness theorems -/

/-- Default-valued settings (`snapshot_dir = ".zfs"`, S3 root `"s3root"`). -/
def fixSettings : Settings := ⟨".zfs", "s3root"⟩

/-- A live HEAD result: 1024 bytes, a whole-second timestamp. -/
def fixHead : Option S3Meta :=
  some { key := "test/key.txt", size := 1024,
         last_modified := some ⟨1764547200, 0⟩, etag := "abc123",
         content_type := "text/plain", metadata := [] }

/-- The single (current) record `list_object_versions fixHead [] ...`
produces. -/
def fixCur : VersionInfo :=
  { version_id := "v1 (current)", source := .current, size := 1024,
    modified_time := some ⟨1764547200, 0⟩, etag := some "abc123",
    snapshot_name := none, is_current := true }

/-- A stat oracle for a world with no snapshot copies. -/
def noStat : String → Option FileInfo := fun _ => none

/-- A live GET returning five bytes. -/
def fixS3Get : String → String → Except String ByteStr :=
  fun _ _ => Except.ok [104, 105, 33, 10, 10]

/-- A live HEAD outcome whose reported ContentLength (999) differs from the
actual content length (5). -/
def fixS3Head : String → String → S3HeadOutcome :=
  fun _ _ => S3HeadOutcome.ok
    { contentLength := some 999, lastModified := some ⟨1764500000, 250000⟩,
      eTag := some "\"abc\"", contentType := some "text/plain", metadata := [] }

/-- A snapshot GET returning three bytes. -/
def fixSnapGet : String → String → String → Except String ByteStr :=
  fun _ _ _ => Except.ok [111, 108, 100]

/-- A snapshot stat outcome: a regular file of reported size 42. -/
def fixSnapStat : String → String → String → SFTPStatOutcome :=
  fun _ _ _ => SFTPStatOutcome.ok
    { size := some 42, mtime := some 1764000000, ftype := 1 }

/-- The five bytes `fixS3Get` returns. -/
def fixBytes5 : ByteStr := [104, 105, 33, 10, 10]

/-- The three bytes `fixSnapGet` returns. -/
def fixBytes3 : ByteStr := [111, 108, 100]

/-- The record `get_version_content` builds on the current branch over the
fixtures: size 5 (the content length), not 999 (the HEAD-reported size). -/
def fixRecCur : VersionInfo :=
  { version_id := "current", source := .current, size := 5,
    modified_time := some ⟨1764500000, 250000⟩, etag := some "abc",
    snapshot_name := none, is_current := true }

/-- The record `get_version_content` builds on the snapshot branch over the
fixtures for `version_id = "daily_2025-12-01"`. -/
def fixRecSnap : VersionInfo :=
  { version_id := "daily_2025-12-01", source := .snapshot, size := 3,
    modified_time := some ⟨1764000000, 0⟩, etag := none,
    snapshot_name := some "daily_2025-12-01", is_current := false }

/-! ## Theorems -/

/-- Membership in a stable insertion step. -/
theorem mem_orderedInsertBy {α : Type} (le : α → α → Bool) (a x : α)
    (l : List α) : x ∈ orderedInsertBy le a l ↔ x = a ∨ x ∈ l := by
  induction l with
  | nil => simp [orderedInsertBy]
  | cons b t ih =>
    simp only [orderedInsertBy]
    split
    · simp [List.mem_cons]
    · simp only [List.mem_cons, ih]
      tauto

/-- The stable sort is a permutation: membership is preserved. -/
theorem mem_insertionSortBy {α : Type} (le : α → α → Bool) (x : α)
    (l : List α) : x ∈ insertionSortBy le l ↔ x ∈ l := by
  induction l with
  | nil => simp [insertionSortBy]
  | cons a t ih => simp [insertionSortBy, mem_orderedInsertBy, ih]

/-- Every record the dedup walk keeps comes from its input, has a signature
outside the incoming seen-set, and a signature different from the current
signature. -/
theorem dedup_mem_props (l : List VersionInfo) :
    ∀ seen cs v, v ∈ dedupSnapshots l seen cs →
      v ∈ l ∧ signatureOf v ∉ seen ∧ some (signatureOf v) ≠ cs := by
  induction l with
  | nil => intro seen cs v h; simp [dedupSnapshots] at h
  | cons a t ih =>
    intro seen cs v h
    simp only [dedupSnapshots] at h
    split at h
    · have := ih seen cs v h
      exact ⟨List.mem_cons_of_mem _ this.1, this.2⟩
    · split at h
      · have := ih seen cs v h
        exact ⟨List.mem_cons_of_mem _ this.1, this.2⟩
      · rcases List.mem_cons.mp h with h | h
        · subst h
          exact ⟨List.mem_cons_self _ _, by assumption, by assumption⟩
        · have := ih _ cs v h
          refine ⟨List.mem_cons_of_mem _ this.1, fun hs => ?_, this.2.2⟩
          exact this.2.1 (List.mem_cons_of_mem _ hs)

/-- The dedup walk keeps pairwise-distinct signatures. -/
theorem dedup_pairwise (l : List VersionInfo) :
    ∀ seen cs, (dedupSnapshots l seen cs).Pairwise
      (fun a b => signatureOf a ≠ signatureOf b) := by
  induction l with
  | nil => intro seen cs; simp [dedupSnapshots]
  | cons a t ih =>
    intro seen cs
    simp only [dedupSnapshots]
    split
    · exact ih seen cs
    · split
      · exact ih seen cs
      · refine List.Pairwise.cons ?_ (ih _ cs)
        intro b hb hab
        have := (dedup_mem_props t _ cs b hb).2.1
        exact this (hab ▸ List.mem_cons_self _ _)

/-- All records in the pre-labelling list (deduplicated snapshots followed
by the current record, if any) have pairwise-distinct signatures. -/
theorem withCurrent_pairwise (head : Option S3Meta)
    (snapshots : List SnapshotInfo) (stat : String → Option FileInfo) :
    (uniqueVersionsOf head snapshots stat ++
      (get_current_version head).toList).Pairwise
      (fun a b => signatureOf a ≠ signatureOf b) := by
  rw [List.pairwise_append]
  refine ⟨dedup_pairwise _ _ _, ?_, ?_⟩
  · cases get_current_version head <;> simp
  · intro a ha b hb
    have hp := dedup_mem_props _ _ _ _ ha
    have hb' : get_current_version head = some b := by
      cases hcur : get_current_version head <;> rw [hcur] at hb <;>
        simp [Option.toList] at hb
      exact hb ▸ rfl
    have hcs : currentSignatureOf head = some (signatureOf b) := by
      unfold currentSignatureOf
      rw [hb']
      rfl
    intro hab
    exact hp.2.2 (hcs ▸ congrArg some hab)

/-- `patchId` only rewrites `version_id`: the signature is unchanged. -/
theorem patchId_sig (i : Nat) (v : VersionInfo) :
    signatureOf (patchId i v) = signatureOf v := by
  unfold patchId; split <;> rfl

/-- `patchId` preserves `is_current`. -/
theorem patchId_is_current (i : Nat) (v : VersionInfo) :
    (patchId i v).is_current = v.is_current := by
  unfold patchId; split <;> rfl

/-- `patchId` preserves `source`. -/
theorem patchId_source (i : Nat) (v : VersionInfo) :
    (patchId i v).source = v.source := by
  unfold patchId; split <;> rfl

/-- The id `patchId` writes. -/
theorem patchId_version_id (i : Nat) (v : VersionInfo) :
    (patchId i v).version_id =
      if v.is_current then "v" ++ toString i ++ " (current)"
      else "v" ++ toString i := by
  unfold patchId; split <;> simp_all

/-- `assignIds` preserves length. -/
theorem assignIds_length (l : List VersionInfo) :
    ∀ n, (assignIds n l).length = l.length := by
  induction l with
  | nil => intro n; rfl
  | cons a t ih => intro n; simp [assignIds, ih]

/-- Element `i` of `assignIds n l` is element `i` of `l`, patched with
identifier index `n + i`. -/
theorem assignIds_getElem? (l : List VersionInfo) :
    ∀ n i, (assignIds n l)[i]? = (l[i]?).map (patchId (n + i)) := by
  induction l with
  | nil => intro n i; simp [assignIds]
  | cons a t ih =>
    intro n i
    cases i with
    | zero => simp [assignIds]
    | succ j =>
      simp only [assignIds, List.getElem?_cons_succ, ih (n + 1) j]
      rw [show n + 1 + j = n + (j + 1) from by omega]

/-- `assignIds` leaves the list of signatures unchanged. -/
theorem assignIds_map_sig (l : List VersionInfo) :
    ∀ n, (assignIds n l).map signatureOf = l.map signatureOf := by
  induction l with
  | nil => intro n; rfl
  | cons a t ih => intro n; simp [assignIds, patchId_sig, ih]

/-- Claim C2: in every listing, the signatures (size, modified time
truncated to whole seconds) of all returned records — snapshot-sourced and
current-sourced alike — are pairwise distinct. -/
theorem c2_signatures_pairwise_distinct (head : Option S3Meta)
    (snapshots : List SnapshotInfo) (stat : String → Option FileInfo) :
    (list_object_versions head snapshots stat).Pairwise
      (fun a b => signatureOf a ≠ signatureOf b) := by
  unfold list_object_versions
  rw [List.pairwise_reverse]
  have h1 := withCurrent_pairwise head snapshots stat
  have h2 : ((uniqueVersionsOf head snapshots stat ++
      (get_current_version head).toList).map signatureOf).Pairwise (· ≠ ·) :=
    List.pairwise_map.mpr h1
  have h3 : ((assignIds 1 (uniqueVersionsOf head snapshots stat ++
      (get_current_version head).toList)).map signatureOf).Pairwise (· ≠ ·) := by
    rw [assignIds_map_sig]; exact h2
  exact (List.pairwise_map.mp h3).imp fun h => Ne.symm h

/-- Every deduplicated snapshot record is snapshot-sourced and not marked
current (the current record only ever enters the list after dedup). -/
theorem uniqueVersions_source (head : Option S3Meta)
    (snapshots : List SnapshotInfo) (stat : String → Option FileInfo) :
    ∀ v ∈ uniqueVersionsOf head snapshots stat,
      v.source = VersionSource.snapshot ∧ v.is_current = false := by
  intro v hv
  unfold uniqueVersionsOf at hv
  have h1 := (dedup_mem_props _ _ _ _ hv).1
  rw [mem_insertionSortBy] at h1
  unfold snapshotVersionsOf at h1
  rw [List.mem_filterMap] at h1
  obtain ⟨s, _, hs⟩ := h1
  rcases hstat : stat s.name with _ | fi <;> rw [hstat] at hs <;>
    unfold get_snapshot_version at hs
  · exact absurd hs (by simp)
  · rcases hdir : fi.is_dir
    · simp only [hdir, Bool.false_eq_true, if_false, Option.some_inj] at hs
      subst hs
      exact ⟨rfl, rfl⟩
    · simp [hdir] at hs

/-- Claim C5: oldest-first (i.e. over the reverse of the returned list),
identifiers are the contiguous sequence v1..vN — position i carries
`"v(i+1)"`, decorated with `" (current)"` exactly on the current record —
and a current-sourced record can only sit at the last oldest-first
position; the caller receives the reverse (newest first) of that order. -/
theorem c5_identifier_assignment (head : Option S3Meta)
    (snapshots : List SnapshotInfo) (stat : String → Option FileInfo)
    (i : Nat) (r : VersionInfo)
    (h : ((list_object_versions head snapshots stat).reverse)[i]? = some r) :
    (r.version_id = if r.is_current then "v" ++ toString (i + 1) ++ " (current)"
                    else "v" ++ toString (i + 1)) ∧
    (r.source = VersionSource.current →
      i + 1 = (list_object_versions head snapshots stat).length) := by
  unfold list_object_versions at h ⊢
  rw [List.reverse_reverse, assignIds_getElem?] at h
  rw [Option.map_eq_some'] at h
  obtain ⟨v, hv, hr⟩ := h
  subst hr
  constructor
  · rw [patchId_version_id, patchId_is_current, Nat.add_comm 1 i]
  · intro hsrc
    rw [patchId_source] at hsrc
    rw [List.length_reverse, assignIds_length]
    by_cases hi : i < (uniqueVersionsOf head snapshots stat).length
    · rw [List.getElem?_append, if_pos hi] at hv
      have h2 := (uniqueVersions_source head snapshots stat v
        (List.getElem?_mem hv)).1
      rw [hsrc] at h2
      simp at h2
    · rw [List.getElem?_append, if_neg hi] at hv
      rcases hcur : get_current_version head with _ | c <;> rw [hcur] at hv
      · simp [Option.toList] at hv
      · simp only [Option.toList] at hv
        obtain ⟨hbound, _⟩ := List.getElem?_eq_some.mp hv
        simp only [List.length_cons, List.length_nil] at hbound
        rw [List.length_append]
        simp only [Option.toList, List.length_cons, List.length_nil]
        omega

/-- Claim C9: two listing computations over identical backend results are
identical element by element, identifiers included. -/
theorem c9_idempotent (head : Option S3Meta) (snapshots : List SnapshotInfo)
    (stat : String → Option FileInfo) (L1 L2 : List VersionInfo)
    (h1 : list_object_versions head snapshots stat = L1)
    (h2 : list_object_versions head snapshots stat = L2) :
    ∀ i : Nat, L1[i]? = L2[i]? := by
  subst h1; subst h2; intro i; rfl

/-- Claim C6: content dispatch — a `version_id` equal to `"current"` or
ending in `"(current)"` is served from the live S3 backend and yields a
current-sourced record marked `is_current`; any other `version_id` is
treated as a snapshot name, served from the snapshot backend for exactly
that snapshot, and yields a snapshot-sourced record naming it. -/
theorem c6_content_dispatch (st : Settings)
    (s3GetBytes : String → String → Except String ByteStr)
    (s3Head : String → String → S3HeadOutcome)
    (snapGetBytes : String → String → String → Except String ByteStr)
    (snapStat : String → String → String → SFTPStatOutcome)
    (bucket key version_id : String) (c : ByteStr) (rec : VersionInfo)
    (h : get_version_content st s3GetBytes s3Head snapGetBytes snapStat
      bucket key version_id = Except.ok (c, rec)) :
    ((version_id = "current" ∨ str_ends_with version_id "(current)" = true) →
      s3GetBytes bucket key = Except.ok c ∧
        rec.source = VersionSource.current ∧ rec.is_current = true ∧
        rec.snapshot_name = none) ∧
    (version_id ≠ "current" → str_ends_with version_id "(current)" = false →
      snapGetBytes version_id bucket key = Except.ok c ∧
        rec.source = VersionSource.snapshot ∧
        rec.snapshot_name = some version_id ∧ rec.is_current = false) := by
  unfold get_version_content at h
  split at h
  · refine ⟨fun _ => ?_, fun hne hend => ?_⟩
    · rcases hb : s3GetBytes bucket key with e | content <;> rw [hb] at h
      · exact absurd h (by simp)
      · rcases hm : head_object (s3Head bucket key) key with e | metadata <;>
          rw [hm] at h
        · exact absurd h (by simp)
        · rw [Except.ok.injEq, Prod.mk.injEq] at h
          obtain ⟨hc, hrec⟩ := h
          subst hc
          rw [← hrec]
          exact ⟨rfl, rfl, rfl, rfl⟩
    · rename_i hcond
      rcases hcond with h1 | h1
      · exact absurd h1 hne
      · rw [h1] at hend
        exact absurd hend (by simp)
  · rename_i hcond
    refine ⟨fun hc1 => absurd hc1 hcond, fun hne hend => ?_⟩
    rcases hb : snapGetBytes version_id bucket key with e | content <;>
      rw [hb] at h
    · exact absurd h (by simp)
    · rcases hm : stat_snapshot_object st (snapStat version_id bucket key)
          version_id bucket key with e | file_info <;> rw [hm] at h
      · exact absurd h (by simp)
      · rw [Except.ok.injEq, Prod.mk.injEq] at h
        obtain ⟨hc, hrec⟩ := h
        subst hc
        rw [← hrec]
        exact ⟨rfl, rfl, rfl, rfl⟩

/-- Claim C10: on every successful content fetch — current branch and
snapshot branch alike — the returned record's `size` is the byte length of
the returned content (the code uses `len(content)`, not the HEAD-reported
size nor the snapshot stat size). -/
theorem c10_size_is_content_length (st : Settings)
    (s3GetBytes : String → String → Except String ByteStr)
    (s3Head : String → String → S3HeadOutcome)
    (snapGetBytes : String → String → String → Except String ByteStr)
    (snapStat : String → String → String → SFTPStatOutcome)
    (bucket key version_id : String) (c : ByteStr) (rec : VersionInfo)
    (h : get_version_content st s3GetBytes s3Head snapGetBytes snapStat
      bucket key version_id = Except.ok (c, rec)) :
    rec.size = c.length := by
  unfold get_version_content at h
  split at h
  · rcases hb : s3GetBytes bucket key with e | content <;> rw [hb] at h
    · exact absurd h (by simp)
    · rcases hm : head_object (s3Head bucket key) key with e | metadata <;>
        rw [hm] at h
      · exact absurd h (by simp)
      · rw [Except.ok.injEq, Prod.mk.injEq] at h
        obtain ⟨hc, hrec⟩ := h
        subst hc
        rw [← hrec]
  · rcases hb : snapGetBytes version_id bucket key with e | content <;>
      rw [hb] at h
    · exact absurd h (by simp)
    · rcases hm : stat_snapshot_object st (snapStat version_id bucket key)
          version_id bucket key with e | file_info <;> rw [hm] at h
      · exact absurd h (by simp)
      · rw [Except.ok.injEq, Prod.mk.injEq] at h
        obtain ⟨hc, hrec⟩ := h
        subst hc
        rw [← hrec]

/-- Claim C5, witness: applying the labelling theorem at a concrete
single-record listing. -/
theorem c5_witness :
    ((list_object_versions fixHead [] noStat).reverse)[0]? = some fixCur ∧
    (fixCur.version_id =
      if fixCur.is_current then "v" ++ toString (0 + 1) ++ " (current)"
      else "v" ++ toString (0 + 1)) ∧
    (fixCur.source = VersionSource.current →
      0 + 1 = (list_object_versions fixHead [] noStat).length) :=
  ⟨rfl, c5_identifier_assignment fixHead [] noStat 0 fixCur rfl⟩

/-- Claim C9, witness: applying the determinism theorem at a concrete
listing. -/
theorem c9_witness :
    list_object_versions fixHead [] noStat = [fixCur] ∧
    [fixCur][0]? = [fixCur][0]? :=
  ⟨rfl, c9_idempotent fixHead [] noStat [fixCur] [fixCur] rfl rfl 0⟩

/-- Claim C6, witness: applying the dispatch theorem on both branches —
the decorated `"v3 (current)"` id and a snapshot name. -/
theorem c6_witness :
    (get_version_content fixSettings fixS3Get fixS3Head fixSnapGet fixSnapStat
        "b" "k" "v3 (current)" = Except.ok (fixBytes5, fixRecCur) ∧
      fixS3Get "b" "k" = Except.ok fixBytes5 ∧
        fixRecCur.source = VersionSource.current ∧
        fixRecCur.is_current = true ∧ fixRecCur.snapshot_name = none) ∧
    (get_version_content fixSettings fixS3Get fixS3Head fixSnapGet fixSnapStat
        "b" "k" "daily_2025-12-01" = Except.ok (fixBytes3, fixRecSnap) ∧
      fixSnapGet "daily_2025-12-01" "b" "k" = Except.ok fixBytes3 ∧
        fixRecSnap.source = VersionSource.snapshot ∧
        fixRecSnap.snapshot_name = some "daily_2025-12-01" ∧
        fixRecSnap.is_current = false) :=
  ⟨⟨rfl, (c6_content_dispatch fixSettings fixS3Get fixS3Head fixSnapGet
      fixSnapStat "b" "k" "v3 (current)" fixBytes5 fixRecCur rfl).1
      (Or.inr rfl)⟩,
   ⟨rfl, (c6_content_dispatch fixSettings fixS3Get fixS3Head fixSnapGet
      fixSnapStat "b" "k" "daily_2025-12-01" fixBytes3 fixRecSnap rfl).2
      (by decide) rfl⟩⟩

/-- Claim C10, witness: a fetch where the HEAD-reported size is 999 but the
content is five bytes — the record carries size 5. -/
theorem c10_witness :
    get_version_content fixSettings fixS3Get fixS3Head fixSnapGet fixSnapStat
      "b" "k" "current" = Except.ok (fixBytes5, fixRecCur) ∧
    fixRecCur.size = fixBytes5.length :=
  ⟨rfl, c10_size_is_content_length fixSettings fixS3Get fixS3Head fixSnapGet
    fixSnapStat "b" "k" "current" fixBytes5 fixRecCur rfl⟩

/-- Claim C7: snapshot-name parsing tries the three suffix rules in order,
first match wins, and yields exactly the timestamps of the spec's table:
the five positive cases and the three inputs with no timestamp. -/
theorem c7_snapshot_name_table :
    SnapshotInfo.from_name "daily_2025-12-01" =
      { name := "daily_2025-12-01", timestamp := some ⟨2025, 12, 1, 0, 0, 0⟩ } ∧
    SnapshotInfo.from_name "hourly_2025-12-01_14" =
      { name := "hourly_2025-12-01_14", timestamp := some ⟨2025, 12, 1, 14, 0, 0⟩ } ∧
    SnapshotInfo.from_name "monthly_2025-12" =
      { name := "monthly_2025-12", timestamp := some ⟨2025, 12, 1, 0, 0, 0⟩ } ∧
    SnapshotInfo.from_name "auto_daily_backup_2025-06-15" =
      { name := "auto_daily_backup_2025-06-15", timestamp := some ⟨2025, 6, 15, 0, 0, 0⟩ } ∧
    SnapshotInfo.from_name "custom_backup_2025-11-15" =
      { name := "custom_backup_2025-11-15", timestamp := some ⟨2025, 11, 15, 0, 0, 0⟩ } ∧
    SnapshotInfo.from_name "20251201" = { name := "20251201", timestamp := none } ∧
    SnapshotInfo.from_name "random_snapshot_name" =
      { name := "random_snapshot_name", timestamp := none } ∧
    SnapshotInfo.from_name "" = { name := "", timestamp := none } :=
  ⟨rfl, rfl, rfl, rfl, rfl, rfl, rfl, rfl⟩

/-- Claim C8: snapshot object path construction is the pure function
`<snapshot_dir>/<snapshot>/<s3 root>/<bucket>/<key>`, with the root
segment elided when that setting is `""` or `"."`, and it maps the spec's
two concrete rows to the expected paths. -/
theorem c8_path_construction :
    (∀ (st : Settings) (snapshot bucket key : String),
      snapshot_object_path st snapshot bucket key =
        if st.s3_root = "" ∨ st.s3_root = "." then
          st.snapshot_dir ++ "/" ++ snapshot ++ "/" ++ bucket ++ "/" ++ key
        else
          st.snapshot_dir ++ "/" ++ snapshot ++ "/" ++ st.s3_root ++ "/" ++
            bucket ++ "/" ++ key) ∧
    snapshot_object_path ⟨".zfs", "s3root"⟩ "daily_2025-12-01" "my-bucket"
      "folder/file.txt" = ".zfs/daily_2025-12-01/s3root/my-bucket/folder/file.txt" ∧
    snapshot_object_path ⟨".zfs", ""⟩ "snap1" "b" "k" = ".zfs/snap1/b/k" := by
  refine ⟨?_, rfl, rfl⟩
  intro st snapshot bucket key
  unfold snapshot_object_path snapshot_root snapshot_base_path
  by_cases h1 : st.s3_root = "." <;> by_cases h2 : st.s3_root = "" <;>
    simp [h1, h2]

/-- Claim C3, amended: `head_object` returns `none` exactly when the
transport raises a client error — of any code, not only not-found — and
only non-client-error exceptions propagate to the caller. -/
theorem c3_head_object_error_policy (o : S3HeadOutcome) (key : String) :
    (head_object o key = Except.ok none ↔ ∃ c, o = S3HeadOutcome.clientError c) ∧
    (∀ e, head_object o key = Except.error e ↔ o = S3HeadOutcome.otherError e) := by
  cases o <;> simp [head_object]

/-- Claim C3, counterexample: an access-denied client error — which is not
the not-found code — is also converted to `none` instead of propagating. -/
theorem c3_counterexample :
    head_object (S3HeadOutcome.clientError "AccessDenied") "some/key" =
      Except.ok none ∧ "AccessDenied" ≠ s3NotFoundCode :=
  ⟨rfl, by decide⟩

/-- Claim C4, amended: `stat_snapshot_object` returns `none` exactly when
the transport raises an SFTP error — of any code, not only no-such-file —
or an OS error; only other exceptions propagate to the caller. -/
theorem c4_stat_error_policy (st : Settings) (o : SFTPStatOutcome)
    (snapshot bucket key : String) :
    (stat_snapshot_object st o snapshot bucket key = Except.ok none ↔
      (∃ c, o = SFTPStatOutcome.sftpError c) ∨ (∃ m, o = SFTPStatOutcome.osError m)) ∧
    (∀ e, stat_snapshot_object st o snapshot bucket key = Except.error e ↔
      o = SFTPStatOutcome.otherError e) := by
  cases o <;> simp [stat_snapshot_object]

/-- Claim C4, counterexample: a permission-denied SFTP error (code 3,
distinct from `SFTP_NO_SUCH_FILE = 2`) is also converted to `none` instead
of propagating. -/
theorem c4_counterexample :
    stat_snapshot_object ⟨".zfs", "s3root"⟩ (SFTPStatOutcome.sftpError 3)
      "snap1" "b" "k" = Except.ok none ∧ (3 : Nat) ≠ sftpNoSuchFile :=
  ⟨rfl, by decide⟩

/-- Claim C1: evaluation at the spec's scenario — snapshots
`daily_2025-12-02` and `daily_2025-12-03` both hold the object with
signature (1000, T1), the live object has (2000, T2). `list_snapshots`
sorts the snapshots newest-first (whatever the directory order was), the
mapper's mtime sort is stable on the tie, and the dedup walk keeps the
first record it meets — so the surviving `v1` record names the NEWER
snapshot `daily_2025-12-03`, not `daily_2025-12-02` as the claim (and the
mapper's own docstring, "show the OLDEST snapshot") require. -/
theorem c1_failing_input_eval :
    list_object_versions
      (some { key := "folder/file.txt", size := 2000,
              last_modified := some ⟨1764800000, 0⟩, etag := "e2",
              content_type := "application/octet-stream", metadata := [] })
      (sortSnapshots [SnapshotInfo.from_name "daily_2025-12-02",
                      SnapshotInfo.from_name "daily_2025-12-03"])
      (fun _ => some { path := "p", name := "file.txt", size := 1000,
                       modified_time := ⟨1764600000, 0⟩, is_dir := false }) =
    [{ version_id := "v2 (current)", source := .current, size := 2000,
       modified_time := some ⟨1764800000, 0⟩, etag := some "e2",
       snapshot_name := none, is_current := true },
     { version_id := "v1", source := .snapshot, size := 1000,
       modified_time := some ⟨1764600000, 0⟩, etag := none,
       snapshot_name := some "daily_2025-12-03", is_current := false }] := rfl

end RsyncS3
